import Mathlib

/-!
Shallow embedding of the Relay feedback-intake service: the hybrid search
handler and relevance scoring from the Hono worker, and the asynchronous
analysis workflow (classify / embed / upsert / finalize).  JavaScript string
operations are modelled on `List Char` data, numbers as `Nat`/`Int`/`Rat`
with exact arithmetic.
-/

namespace Relay

/-- Models JS `String.prototype.toLowerCase` (ASCII range, which also matches
SQLite's ASCII-case-insensitive `LIKE` used by the keyword query). -/
def lowerStr (s : String) : String := ⟨s.data.map Char.toLower⟩

/-- Boolean infix test on lists (needle occurs contiguously in haystack). -/
def isInfixL (needle : List Char) : List Char → Bool
  | [] => needle.isEmpty
  | c :: rest => needle.isPrefixOf (c :: rest) || isInfixL needle rest

/-- Models JS `haystack.includes(needle)`: substring containment, with the
empty string contained in everything. -/
def jsIncludes (haystack needle : String) : Bool :=
  isInfixL needle.data haystack.data

/-- One step of the fold implementing JS `split(/\s+/)`: state is
(finished tokens, current token, currently inside a whitespace run). -/
def jsSplitStep (st : List String × String × Bool) (c : Char) :
    List String × String × Bool :=
  match st with
  | (toks, cur, inWs) =>
    if c.isWhitespace then
      if inWs then (toks, cur, inWs) else (toks ++ [cur], "", true)
    else (toks, cur.push c, false)

/-- Models JS `s.split(/\s+/)`: splits on maximal whitespace runs; a leading
run contributes a leading empty token and a trailing run a trailing empty
token; the empty string yields `[""]`. -/
def jsSplitWS (s : String) : List String :=
  match s.data.foldl jsSplitStep ([], "", false) with
  | (toks, cur, _) => toks ++ [cur]

/-- Models JS `Array.prototype.join(sep)`. -/
def joinWith (sep : String) : List String → String
  | [] => ""
  | [x] => x
  | x :: y :: xs => x ++ sep ++ joinWith sep (y :: xs)

theorem jsSplitWS_length_pos (s : String) : 0 < (jsSplitWS s).length := by
  unfold jsSplitWS
  rcases s.data.foldl jsSplitStep ([], "", false) with ⟨toks, cur, b⟩
  simp

/-- A row of the `feedback` table as read by the search handler
(`src/unnamed/part_002`): `title` and `theme` are nullable columns. -/
structure FeedbackRecord where
  id : Nat
  content : String
  title : Option String
  theme : Option String
  created_at : Nat
deriving DecidableEq, Repr

/-- SQLite `column LIKE '%pat%'` (ASCII case-insensitive). -/
def likeCI (pat s : String) : Bool :=
  isInfixL (lowerStr pat).data (lowerStr s).data

/-- The `WHERE content LIKE ? OR title LIKE ? OR theme LIKE ?` predicate of the
keyword fallback query; a NULL column never matches. -/
def matchesKeyword (q : String) (r : FeedbackRecord) : Bool :=
  likeCI q r.content
    || (match r.title with | some t => likeCI q t | none => false)
    || (match r.theme with | some t => likeCI q t | none => false)

/-- Newest-first order used by `ORDER BY created_at DESC`. -/
def newerEq (a b : FeedbackRecord) : Prop := b.created_at ≤ a.created_at

instance : DecidableRel newerEq := fun a b => Nat.decLe b.created_at a.created_at

instance : IsTotal FeedbackRecord newerEq :=
  ⟨fun x y => le_total y.created_at x.created_at⟩

instance : IsTrans FeedbackRecord newerEq :=
  ⟨fun _ _ _ h1 h2 => le_trans h2 h1⟩

/-- The keyword fallback query of the search handler: substring match on
content/title/theme, newest first, `LIMIT 10`. -/
def keywordQuery (store : List FeedbackRecord) (q : String) : List FeedbackRecord :=
  (List.insertionSort newerEq (store.filter (matchesKeyword q))).take 10

/-- JS `Math.round(100 * k / n)` computed exactly for naturals (half rounds
up), as used for the keyword relevance percentage. -/
def round100 (k n : Nat) : Nat := (200 * k + n) / (2 * n)

/-- Lines 212-215 of the handler: lowercase the content and the query, split
the query on whitespace, count the query terms contained in the content and
round the ratio to a percentage (`0` guard when there are no terms). -/
def relevancePercentage (q content : String) : Nat :=
  let terms := jsSplitWS (lowerStr q)
  let k := (terms.filter (fun t => jsIncludes (lowerStr content) t)).length
  if 0 < terms.length then round100 k terms.length else 0

/-- `getRelevanceExplanation` from `src/unnamed/part_002`: banding on the
(unclamped) score with matched keywords cited above 80. -/
def getRelevanceExplanation (f : FeedbackRecord) (q : String) (score : Nat) : String :=
  let text := lowerStr f.content
  let words := (jsSplitWS (lowerStr q)).filter (fun w => 0 < w.length)
  let matchedKeywords := words.filter (fun w => jsIncludes text w)
  if 80 < score then
    "Very strong match. " ++
      (if 0 < matchedKeywords.length then
        "Keywords: " ++ joinWith ", " (matchedKeywords.take 3)
      else "High relevance")
  else if 60 < score then "Good match. Similar content and language patterns detected."
  else if 40 < score then "Moderate relevance. Some content overlap with your search."
  else "Related feedback. Could be relevant to your search."

/-- A search result after enrichment: the record, the clamped percentage and
the explanation string. -/
structure EnrichedResult where
  record : FeedbackRecord
  percentage : Nat
  explanation : String
deriving DecidableEq, Repr

/-- Lines 211-224 of the handler: the percentage is clamped below at 20 with
`Math.max(20, _)`, while the explanation sees the unclamped value. -/
def enrichOne (q : String) (f : FeedbackRecord) : EnrichedResult :=
  let rp := relevancePercentage q f.content
  { record := f, percentage := max 20 rp
    explanation := getRelevanceExplanation f q rp }

def enrich (q : String) (rs : List FeedbackRecord) : List EnrichedResult :=
  rs.map (enrichOne q)

/-- The handler's observable outcome: 400 for a missing/empty `q`, 200 with
enriched results and the reported `thinking.searchType`, or 500. -/
inductive SearchResponse where
  | badRequest : SearchResponse
  | ok (results : List EnrichedResult) (searchType : String) (matchCount : Nat) : SearchResponse
  | serverError : SearchResponse
deriving DecidableEq, Repr

/-- The vector attempt of the handler (the inner try block): `Except.error`
stands for any throw in embed/query/hydration; `Except.ok ids` for the
candidate id list returned by the Vectorize query.  Yields the hydrated rows
(store rows whose id is among the candidates) and the `usedVectorize` flag,
which is set only after a nonempty candidate list was hydrated. -/
def runVectorAttempt (va : Except Unit (List Nat)) (store : List FeedbackRecord) :
    List FeedbackRecord × Bool :=
  match va with
  | .error _ => ([], false)
  | .ok ids =>
    if 0 < ids.length then (store.filter (fun r => ids.contains r.id), true)
    else ([], false)

/-- `app.get('/api/search')` from `src/unnamed/part_002`.  `q` is the query
parameter (`none` when absent; JS `!query` also rejects the empty string but
nothing else), `va` the vector attempt's outcome, `kwOk` whether the keyword
D1 query would succeed (false = it throws and the outer catch returns 500),
`store` the feedback table. -/
def searchHandler (q : Option String) (va : Except Unit (List Nat)) (kwOk : Bool)
    (store : List FeedbackRecord) : SearchResponse :=
  match q with
  | none => .badRequest
  | some query =>
    if query = "" then .badRequest
    else
      match runVectorAttempt va store with
      | (results, usedVectorize) =>
        if results.length = 0 then
          if kwOk then
            let rows := keywordQuery store query
            .ok (enrich query rows) (if usedVectorize then "semantic" else "keyword")
              rows.length
          else .serverError
        else
          .ok (enrich query results) (if usedVectorize then "semantic" else "keyword")
            results.length

/-! ### The vector-only search of `src/unnamed/part_003` (lines 876-917)

That handler hydrates candidate rows from D1 and then pairs each hydrated row
with the Vectorize match at the same array index. -/

/-- A Vectorize match: candidate id and cosine similarity score. -/
structure VecMatch where
  id : Nat
  score : ℚ
deriving DecidableEq, Repr

/-- `searchResults.matches[index]?.score || 0`. -/
def scoreAt (ms : List VecMatch) (i : Nat) : ℚ :=
  match ms[i]? with
  | some m => m.score
  | none => 0

/-- A result of the vector-only handler: hydrated record plus the raw
similarity score attached to it. -/
structure VecEnriched where
  record : FeedbackRecord
  score : ℚ
deriving DecidableEq, Repr

/-- Lines 901-917: `(results.results || []).map((feedback, index) => ...)`
pairing row `index` with `matches[index]`. -/
def enrichVectorOnly (rows : List FeedbackRecord) (ms : List VecMatch) :
    List VecEnriched :=
  rows.enum.map (fun p => { record := p.2, score := scoreAt ms p.1 })

/-! ### The analysis workflow (`ProcessFeedbackWorkflow.run`)

Embedded from the workflow source in `src/feedback-intelligence/README.md`
(lines 293-454). -/

/-- The fixed category taxonomy of the analyze step. -/
def categories : List String := ["Bug", "Feature Request", "Documentation", "Performance", "Other"]

/-- `const category = categories[0]` — the analyze step's mock categorization:
the first taxonomy entry, independent of the text. -/
def categoryOf (_text : String) : String := categories.head (by decide)

def criticalKeywords : List String := ["broken", "crash", "emergency", "urgent"]
def highKeywords : List String := ["issue", "problem", "bug", "error"]
def mediumKeywords : List String := ["improve", "slow", "suggest"]
def lowKeywords : List String := ["nice", "idea", "thanks"]

/-- `keywords.some(k => lowerText.includes(k))`. -/
def containsAny (lowerText : String) (ks : List String) : Bool :=
  ks.any (fun k => jsIncludes lowerText k)

/-- The urgency loop of the analyze step: `Object.entries(urgencyKeywords)`
iterates critical, high, medium, low in insertion order, breaking at the
first bucket with a keyword contained in the lowercased text; the initial
value (and hence the no-match default) is `'low'`. -/
def urgencyOf (text : String) : String :=
  let lowerText := lowerStr text
  if containsAny lowerText criticalKeywords then "critical"
  else if containsAny lowerText highKeywords then "high"
  else if containsAny lowerText mediumKeywords then "medium"
  else if containsAny lowerText lowKeywords then "low"
  else "low"

/-- `text.length > 100 ? text.substring(0, 97) + '...' : text`. -/
def summaryOf (text : String) : String :=
  if 100 < text.length then String.mk (text.data.take 97) ++ "..." else text

/-- The tag vocabulary of `extractTags`, in insertion order. -/
def tagMap : List (String × List String) :=
  [("UX", ["ui", "interface", "design", "button", "color", "layout"]),
   ("Performance", ["slow", "fast", "speed", "lag", "timeout", "latency"]),
   ("Documentation", ["doc", "guide", "readme", "tutorial", "example"]),
   ("Mobile", ["mobile", "phone", "ios", "android", "responsive"]),
   ("API", ["api", "endpoint", "rest", "graphql", "sdk"]),
   ("Security", ["security", "auth", "ssl", "encrypt", "token"]),
   ("Crash", ["crash", "error", "fail", "exception", "broken"])]

/-- `extractTags`: every vocabulary entry with a keyword contained in the
lowercased text, in vocabulary order (JS `Set` preserves insertion order and
the tag labels are distinct). -/
def extractTags (text : String) : List String :=
  let lowerText := lowerStr text
  (tagMap.filter (fun p => containsAny lowerText p.2)).map Prod.fst

/-- JS `v || d` for an optional string (both `undefined` and `''` are falsy). -/
def jsOrDefault (v : Option String) (d : String) : String :=
  match v with
  | none => d
  | some s => if s = "" then d else s

/-- Outcomes of the collaborator calls made by one workflow run.  An
`Except.error` models the corresponding call throwing (after the hosting
engine has exhausted its retries of that step). -/
structure WfEnv where
  /-- `R2_BUCKET.get(payload.r2Key)`: the stored text, `none` when the object
  is absent (the step then throws). -/
  r2Object : Option String
  /-- The sentiment model call; `Except.ok lbl` carries
  `labels?.[0]?.label` (`none` when the path is undefined). -/
  sentimentResp : Except Unit (Option String)
  /-- The `categoryScore` embedding call inside the analyze step (its value
  is unused by the code, only its success matters). -/
  categoryResp : Except Unit Unit
  /-- The generate-embedding call; `Except.ok d` carries `data[0]`
  (`none` when absent, in which case the code uses `[]`). -/
  embedResp : Except Unit (Option (List Int))
  /-- Whether `VECTORIZE_INDEX.upsert` succeeds (its failure is caught). -/
  upsertOk : Bool
  /-- Whether the final D1 `UPDATE` succeeds. -/
  d1Ok : Bool

/-- Which workflow step threw. -/
inductive WfError where
  | fetchFailed : WfError
  | analyzeFailed : WfError
  | embedFailed : WfError
  | updateFailed : WfError
deriving DecidableEq, Repr

/-- The row written by the final `UPDATE feedback SET ...` statement. -/
structure D1UpdateRow where
  status : String
  sentiment : String
  category : String
  urgency : String
  summary : String
  vector_id : Option String
  tags : String
  feedbackId : Nat
deriving DecidableEq, Repr

/-- `ProcessFeedbackWorkflow.run`: fetch-from-r2, analyze-with-ai,
generate-embedding, upsert-to-vectorize (errors caught and swallowed, the
step returns the id either way), update-d1.  `Except.ok` carries the row the
final update persists; `Except.error` identifies the step whose throw aborted
the run (no update is written in that case). -/
def runWorkflow (env : WfEnv) (feedbackId : Nat) : Except WfError D1UpdateRow :=
  match env.r2Object with
  | none => .error .fetchFailed
  | some text =>
    match env.sentimentResp with
    | .error _ => .error .analyzeFailed
    | .ok lbl =>
      match env.categoryResp with
      | .error _ => .error .analyzeFailed
      | .ok _ =>
        let sentiment := jsOrDefault lbl "neutral"
        match env.embedResp with
        | .error _ => .error .embedFailed
        | .ok d =>
          let _vector := d.getD []
          let vid := toString feedbackId
          if env.d1Ok then
            .ok { status := "COMPLETED", sentiment := sentiment
                  category := categoryOf text, urgency := urgencyOf text
                  summary := summaryOf text, vector_id := some vid
                  tags := joinWith "," (extractTags text), feedbackId := feedbackId }
          else .error .updateFailed

/-! ### Concrete instances used by witnesses and counterexamples -/

/-- A stored item whose content contains the word "login". -/
def demoRec : FeedbackRecord :=
  { id := 3, content := "login page broken", title := none, theme := none, created_at := 50 }

def demoStore : List FeedbackRecord := [demoRec]

def demoRowA : FeedbackRecord :=
  { id := 1, content := "first item", title := none, theme := none, created_at := 100 }

def demoRowB : FeedbackRecord :=
  { id := 2, content := "second item", title := none, theme := none, created_at := 200 }

/-- Two Vectorize matches: id 1 scored 9/10, id 2 scored 1/10. -/
def demoMatches : List VecMatch := [⟨1, 9/10⟩, ⟨2, 1/10⟩]

/-- A healthy environment except that the embedding provider call errors. -/
def envEmbedDown : WfEnv :=
  { r2Object := some "the app is great", sentimentResp := .ok (some "POSITIVE")
    categoryResp := .ok (), embedResp := .error (), upsertOk := true, d1Ok := true }

/-- A healthy environment except that the Vectorize upsert fails. -/
def envUpsertDown : WfEnv :=
  { r2Object := some "slow dashboards", sentimentResp := .ok (some "NEGATIVE")
    categoryResp := .ok (), embedResp := .ok (some [1, 2]), upsertOk := false, d1Ok := true }

/-! ### Helper lemmas -/

theorem round100_self (n : Nat) (hn : 0 < n) : round100 n n = 100 := by
  unfold round100
  have h : 200 * n + n = 2 * n * 100 + n := by ring
  rw [h, Nat.mul_add_div (by omega), Nat.div_eq_of_lt (by omega)]

theorem enrich_explanation (q : String) (rows : List FeedbackRecord) :
    ∀ e ∈ enrich q rows,
      e.explanation
        = getRelevanceExplanation e.record q (relevancePercentage q e.record.content) := by
  intro e he
  rcases List.mem_map.mp he with ⟨f, _, rfl⟩
  rfl

/-! ### The claims -/

/-- C1: if the vector-mode attempt raises any error or yields zero candidate
ids, the search falls back to keyword mode — a case-insensitive substring
match against the stored text fields, at most 10 matches, ordered
newest-first — and succeeds; a 500 is returned only when the vector attempt
produced nothing usable and the keyword attempt also fails. -/
theorem C1_vector_failure_falls_back_to_keyword
    (q : String) (hq : q ≠ "") (store : List FeedbackRecord)
    (va : Except Unit (List Nat))
    (hva : va = .error () ∨ va = .ok []) :
    searchHandler (some q) va true store
        = .ok (enrich q (keywordQuery store q)) "keyword" (keywordQuery store q).length
    ∧ (keywordQuery store q).length ≤ 10
    ∧ (∀ r ∈ keywordQuery store q, matchesKeyword q r = true)
    ∧ List.Sorted newerEq (keywordQuery store q)
    ∧ (∀ kwOk, searchHandler (some q) va kwOk store = .serverError ↔ kwOk = false)
    ∧ (∀ (va2 : Except Unit (List Nat)) (kwOk : Bool),
        searchHandler (some q) va2 kwOk store = .serverError →
          (runVectorAttempt va2 store).1 = [] ∧ kwOk = false) := by
  have hrun : runVectorAttempt va store = ([], false) := by
    rcases hva with h | h <;> subst h <;> rfl
  refine ⟨?_, ?_, ?_, ?_, ?_, ?_⟩
  · simp [searchHandler, hrun, hq]
  · exact List.length_take_le _ _
  · intro r hr
    have hr1 : r ∈ List.insertionSort newerEq (store.filter (matchesKeyword q)) :=
      List.take_subset _ _ hr
    have hr2 : r ∈ store.filter (matchesKeyword q) :=
      (List.perm_insertionSort newerEq _).mem_iff.mp hr1
    exact (List.mem_filter.mp hr2).2
  · exact List.Pairwise.sublist (List.take_sublist _ _)
      (List.sorted_insertionSort newerEq _)
  · intro kwOk
    cases kwOk <;> simp [searchHandler, hrun, hq]
  · intro va2 kwOk h
    rcases hres : runVectorAttempt va2 store with ⟨results, used⟩
    by_cases hlen : results.length = 0
    · cases kwOk
      · exact ⟨List.length_eq_zero.mp hlen, rfl⟩
      · simp [searchHandler, hres, hq, hlen] at h
    · simp [searchHandler, hres, hq, hlen] at h

theorem C1_fallback_witness :
    searchHandler (some "login") (Except.error ()) true demoStore
      = .ok (enrich "login" (keywordQuery demoStore "login")) "keyword"
          (keywordQuery demoStore "login").length :=
  (C1_vector_failure_falls_back_to_keyword "login" (by decide) demoStore
    (Except.error ()) (Or.inl rfl)).1

/-- C2: every result's relevance percentage equals
round(100 * matchedQueryWords / totalQueryWords) clamped below at 20; a
result whose content contains every query word scores exactly 100 and no
result is labeled under 20. -/
theorem C2_keyword_relevance_score (q : String) (f : FeedbackRecord) :
    (enrichOne q f).percentage
        = max 20 (round100
            ((jsSplitWS (lowerStr q)).filter
                (fun t => jsIncludes (lowerStr f.content) t)).length
            (jsSplitWS (lowerStr q)).length)
    ∧ 20 ≤ (enrichOne q f).percentage
    ∧ (((jsSplitWS (lowerStr q)).filter
          (fun t => jsIncludes (lowerStr f.content) t)).length
            = (jsSplitWS (lowerStr q)).length
        → (enrichOne q f).percentage = 100) := by
  have hpos := jsSplitWS_length_pos (lowerStr q)
  refine ⟨?_, le_max_left _ _, ?_⟩
  · simp [enrichOne, relevancePercentage, hpos]
  · intro hk
    show max 20 (relevancePercentage q f.content) = 100
    rw [relevancePercentage]
    simp only [hpos, if_true, hk]
    rw [round100_self _ hpos]
    omega

theorem C2_full_match_witness :
    ((jsSplitWS (lowerStr "login fast")).filter
        (fun t => jsIncludes (lowerStr "login is fast") t)).length
      = (jsSplitWS (lowerStr "login fast")).length
    ∧ (enrichOne "login fast"
        { id := 9, content := "login is fast", title := none, theme := none,
          created_at := 1 }).percentage = 100 :=
  ⟨by decide,
   (C2_keyword_relevance_score "login fast"
      { id := 9, content := "login is fast", title := none, theme := none,
        created_at := 1 }).2.2 (by decide)⟩

/-- C3: the urgency derived by the analyze step is a pure function of the
lowercased text over ordered keyword buckets — critical first, then high,
then medium, defaulting to low. -/
theorem C3_urgency_keyword_buckets (t : String) :
    (containsAny (lowerStr t) criticalKeywords = true → urgencyOf t = "critical")
    ∧ (containsAny (lowerStr t) criticalKeywords = false →
        containsAny (lowerStr t) highKeywords = true → urgencyOf t = "high")
    ∧ (containsAny (lowerStr t) criticalKeywords = false →
        containsAny (lowerStr t) highKeywords = false →
        containsAny (lowerStr t) mediumKeywords = true → urgencyOf t = "medium")
    ∧ (containsAny (lowerStr t) criticalKeywords = false →
        containsAny (lowerStr t) highKeywords = false →
        containsAny (lowerStr t) mediumKeywords = false → urgencyOf t = "low") := by
  refine ⟨fun h1 => ?_, fun h1 h2 => ?_, fun h1 h2 h3 => ?_, fun h1 h2 h3 => ?_⟩ <;>
    simp [urgencyOf, *]

theorem C3_urgency_witness :
    urgencyOf "the login page is broken" = "critical"
    ∧ urgencyOf "please improve the docs" = "medium"
    ∧ urgencyOf "hello there" = "low" :=
  ⟨(C3_urgency_keyword_buckets "the login page is broken").1 (by decide),
   (C3_urgency_keyword_buckets "please improve the docs").2.2.1
     (by decide) (by decide) (by decide),
   (C3_urgency_keyword_buckets "hello there").2.2.2
     (by decide) (by decide) (by decide)⟩

/-- C4: the summary is the text verbatim when its length is at most 100
characters, and the first 97 characters followed by "..." (total length 100)
when it exceeds 100. -/
theorem C4_summary_truncation (t : String) :
    (t.length ≤ 100 → summaryOf t = t)
    ∧ (100 < t.length →
        summaryOf t = String.mk (t.data.take 97) ++ "..."
        ∧ (summaryOf t).length = 100) := by
  constructor
  · intro h
    simp [summaryOf, Nat.not_lt.mpr h]
  · intro h
    have he : summaryOf t = String.mk (t.data.take 97) ++ "..." := by
      simp [summaryOf, h]
    refine ⟨he, ?_⟩
    rw [he, String.length_append]
    have h1 : (String.mk (t.data.take 97)).length = 97 := by
      show (t.data.take 97).length = 97
      rw [List.length_take]
      have h2 : t.length = t.data.length := rfl
      omega
    rw [h1]
    decide

theorem C4_summary_witness :
    summaryOf (String.mk (List.replicate 100 'a')) = String.mk (List.replicate 100 'a')
    ∧ summaryOf (String.mk (List.replicate 101 'a'))
        = String.mk ((String.mk (List.replicate 101 'a')).data.take 97) ++ "..." :=
  ⟨(C4_summary_truncation _).1 (by decide),
   ((C4_summary_truncation _).2 (by decide)).1⟩

/-- C5 counterexample: for a text containing no taxonomy keyword the analyze
step still assigns "Bug" (the constant `categories[0]` mock), never the
claimed "Other" default. -/
theorem C5_category_counterexample :
    categoryOf "hello world" = "Bug" ∧ categoryOf "hello world" ≠ "Other" :=
  ⟨rfl, by decide⟩

/-- C5 amended: the category assigned by the analyze step is the constant
"Bug" — the first entry of the taxonomy — independent of the text; no input
is ever categorized "Other". -/
theorem C5_category_constant_bug (t : String) :
    categoryOf t = "Bug" ∧ categoryOf t ≠ "Other" :=
  ⟨rfl, by
    intro h
    have hb : ("Bug" : String) = "Other" := h
    exact absurd hb (by decide)⟩

/-- C6 counterexample: with every collaborator healthy except the embedding
call, the workflow run aborts with an embed-stage error instead of continuing
to the update stage with a null vector — nothing is written. -/
theorem C6_embed_error_counterexample :
    runWorkflow envEmbedDown 5 = .error .embedFailed
    ∧ (runWorkflow envEmbedDown 5).isOk = false :=
  ⟨rfl, rfl⟩

/-- C6 amended: if the embedding provider call errors during the Embed stage,
the generate-embedding step throws (there is no catch around it) and the
whole pipeline run aborts; the update stage never runs, so the classify
results are not written.  The pipeline proceeds with an empty vector only
when the embedding call succeeds but carries no data. -/
theorem C6_embed_error_aborts_pipeline (env : WfEnv) (text : String)
    (lbl : Option String) (fid : Nat)
    (h1 : env.r2Object = some text) (h2 : env.sentimentResp = .ok lbl)
    (h3 : env.categoryResp = .ok ())
    (h4 : env.embedResp = .error ()) :
    runWorkflow env fid = .error .embedFailed := by
  simp [runWorkflow, h1, h2, h3, h4]

theorem C6_embed_error_witness :
    envEmbedDown.embedResp = .error ()
    ∧ runWorkflow envEmbedDown 5 = .error .embedFailed :=
  ⟨rfl, C6_embed_error_aborts_pipeline envEmbedDown "the app is great"
    (some "POSITIVE") 5 rfl rfl rfl rfl⟩

/-- C7 counterexample: a whitespace-only query is truthy in JS, so the
handler does not return 400 — it proceeds and executes the keyword search. -/
theorem C7_whitespace_query_not_rejected :
    searchHandler (some "   ") (Except.error ()) true [] = .ok [] "keyword" 0
    ∧ searchHandler (some "   ") (Except.error ()) true [] ≠ .badRequest :=
  ⟨rfl, by decide⟩

/-- C7 amended: the search fails with 400 InvalidQuery exactly when the query
parameter is missing or the empty string; a whitespace-only (nonempty) query
is not rejected and the search executes. -/
theorem C7_bad_request_iff_missing_or_empty (q : Option String)
    (va : Except Unit (List Nat)) (kwOk : Bool) (store : List FeedbackRecord) :
    searchHandler q va kwOk store = .badRequest ↔ (q = none ∨ q = some "") := by
  cases q with
  | none => simp [searchHandler]
  | some s =>
    by_cases hs : s = ""
    · subst hs
      simp [searchHandler]
    · rcases hres : runVectorAttempt va store with ⟨results, used⟩
      by_cases hlen : results.length = 0 <;>
        cases kwOk <;> simp [searchHandler, hres, hs, hlen]

/-- C8 counterexample: with the Vectorize upsert failing, processing still
completes and the persisted record's vector_id is the item's id string, not
null. -/
theorem C8_vector_id_counterexample :
    envUpsertDown.upsertOk = false
    ∧ runWorkflow envUpsertDown 7
        = .ok { status := "COMPLETED", sentiment := "NEGATIVE", category := "Bug",
                urgency := "medium", summary := "slow dashboards",
                vector_id := some "7", tags := "Performance", feedbackId := 7 }
    ∧ (some "7" : Option String) ≠ none :=
  ⟨rfl, rfl, by decide⟩

/-- C8 amended: the upsert step catches any Vectorize failure and still
returns the locally generated id, so whenever the run reaches the final
update it writes vector_id = the item's id string regardless of whether the
upsert succeeded; the item's processing completes either way. -/
theorem C8_vector_id_set_regardless_of_upsert (env : WfEnv) (text : String)
    (lbl : Option String) (d : Option (List Int)) (fid : Nat)
    (h1 : env.r2Object = some text) (h2 : env.sentimentResp = .ok lbl)
    (h3 : env.categoryResp = .ok ()) (h4 : env.embedResp = .ok d)
    (h5 : env.d1Ok = true) :
    ∃ row, runWorkflow env fid = .ok row
      ∧ row.vector_id = some (toString fid) ∧ row.status = "COMPLETED" := by
  refine ⟨{ status := "COMPLETED", sentiment := jsOrDefault lbl "neutral"
            category := categoryOf text, urgency := urgencyOf text
            summary := summaryOf text, vector_id := some (toString fid)
            tags := joinWith "," (extractTags text), feedbackId := fid },
          ?_, rfl, rfl⟩
  simp [runWorkflow, h1, h2, h3, h4, h5]

theorem C8_vector_id_witness :
    ∃ row, runWorkflow envUpsertDown 7 = .ok row
      ∧ row.vector_id = some (toString 7) ∧ row.status = "COMPLETED" :=
  C8_vector_id_set_regardless_of_upsert envUpsertDown "slow dashboards"
    (some "NEGATIVE") (some [1, 2]) 7 rfl rfl rfl rfl rfl

/-- C9 counterexample: the hybrid handler runs the same item and query
through the same enrichment in vector mode and in keyword mode, attaching the
identical explanation string in both — the explanation does not tell the
caller which engine produced the hit (only `thinking.searchType` differs). -/
theorem C9_same_explanation_both_modes :
    searchHandler (some "login") (Except.ok [3]) true demoStore
        = .ok [enrichOne "login" demoRec] "semantic" 1
    ∧ searchHandler (some "login") (Except.error ()) true demoStore
        = .ok [enrichOne "login" demoRec] "keyword" 1
    ∧ (enrichOne "login" demoRec).explanation
        = "Very strong match. Keywords: login" :=
  ⟨rfl, rfl, rfl⟩

/-- C9 amended: in the hybrid handler every returned result's explanation
equals `getRelevanceExplanation` applied to the record, the query, and the
unclamped keyword-overlap percentage — one mode-independent function, so the
explanation text is identical whichever mode produced the hit. -/
theorem C9_explanation_mode_independent (q : String) (va : Except Unit (List Nat))
    (kwOk : Bool) (store : List FeedbackRecord)
    (res : List EnrichedResult) (mode : String) (m : Nat)
    (h : searchHandler (some q) va kwOk store = .ok res mode m) :
    ∀ e ∈ res,
      e.explanation
        = getRelevanceExplanation e.record q (relevancePercentage q e.record.content) := by
  by_cases hs : q = ""
  · subst hs
    simp [searchHandler] at h
  · rcases hres : runVectorAttempt va store with ⟨results, used⟩
    by_cases hlen : results.length = 0 <;> cases kwOk <;>
      simp [searchHandler, hres, hs, hlen] at h
    · rcases h with ⟨hr, -, -⟩
      subst hr
      exact enrich_explanation q (keywordQuery store q)
    · rcases h with ⟨hr, -, -⟩
      subst hr
      exact enrich_explanation q results
    · rcases h with ⟨hr, -, -⟩
      subst hr
      exact enrich_explanation q results

theorem C9_explanation_witness :
    (enrichOne "login" demoRec).explanation
      = getRelevanceExplanation demoRec "login"
          (relevancePercentage "login" demoRec.content) :=
  C9_explanation_mode_independent "login" (Except.error ()) true demoStore
    [enrichOne "login" demoRec] "keyword" 1 rfl (enrichOne "login" demoRec)
    (by decide)

/-- C10: the vector-only handler pairs the hydrated row at index i with the
Vectorize match at index i (`matches[index]?.score || 0`), not with the match
whose id equals the row's id; concretely, when the store hands back the rows
in the opposite order of the candidate-id list, the row with id 2 carries the
score 9/10 that Vectorize reported for id 1. -/
theorem C10_scores_paired_by_index :
    (∀ (rows : List FeedbackRecord) (ms : List VecMatch) (i : Nat),
        (enrichVectorOnly rows ms)[i]?
          = rows[i]?.map (fun f => { record := f, score := scoreAt ms i }))
    ∧ (enrichVectorOnly [demoRowB, demoRowA] demoMatches)[0]?
        = some { record := demoRowB, score := (9 : ℚ)/10 }
    ∧ demoRowB.id = 2
    ∧ (demoMatches[0]?).map VecMatch.id = some 1
    ∧ ((demoMatches.filter (fun vm => vm.id == demoRowB.id)).map VecMatch.score)
        = [(1 : ℚ)/10]
    ∧ ((9 : ℚ)/10) ≠ ((1 : ℚ)/10) := by
  refine ⟨?_, rfl, rfl, rfl, rfl, by norm_num⟩
  intro rows ms i
  simp only [enrichVectorOnly, List.getElem?_map, List.getElem?_enum,
    Option.map_map]
  rfl

end Relay
